import Mathlib

/-!
The DysLeXiC content script (`extension/content.js`)

A shallow embedding of the content script and the properties of its handlers.

* JavaScript strings are sequences of UTF-16 code units (`JSString`), so that
  `length`, `trim` and `substring` count what the engine counts.
* A value read from storage that may be missing is an `Option`; `none` is
  JavaScript's `undefined`.
* Calls into the platform (`fetch`, `alert`, `console.log`, `console.error`) are
  recorded, in order and with their arguments, in a trace of `Effect`s.  What
  the network answers is an input of the handler (`Except JSError Response`).
* A handler body is a `Run`: the trace it produced, and either a value or the
  error that left it uncaught.
* The body's inline style is a CSS declaration block, keyed by CSS property
  names.  An assignment `style.<idlName> = text` goes through `setProperty`;
  parsing the text and giving the value its canonical form is the work of the
  page's CSS engine, a parameter of the handlers (`CSSEngine`).
-/

namespace DysLeXiC

/-! ## Strings -/

/-- A JavaScript string: its UTF-16 code units. -/
abbrev JSString := List Nat

/-- UTF-16 code units of one Unicode scalar value. -/
def utf16Char (c : Char) : List Nat :=
  if c.toNat < 65536 then [c.toNat]
  else [55296 + (c.toNat - 65536) / 1024, 56320 + (c.toNat - 65536) % 1024]

/-- The JavaScript string written as a literal in the source. -/
def utf16 (s : String) : JSString :=
  s.toList.foldr (fun c acc => utf16Char c ++ acc) []

/-- Code units removed by `String.prototype.trim`: the ECMAScript `WhiteSpace`
(TAB, VT, FF, ZWNBSP and the space separators) and `LineTerminator`
(LF, CR, LS, PS) code points. -/
def isTrimmable (c : Nat) : Bool :=
  c == 9 || c == 10 || c == 11 || c == 12 || c == 13 || c == 32 || c == 160 ||
  c == 5760 || (8192 ≤ c && c ≤ 8202) || c == 8232 || c == 8233 || c == 8239 ||
  c == 8287 || c == 12288 || c == 65279

/-- The method `String.prototype.trim`. -/
def trim (s : JSString) : JSString :=
  ((s.dropWhile isTrimmable).reverse.dropWhile isTrimmable).reverse

/-- The method `String.prototype.substring(start, end)` on non-negative integer
arguments: both are clamped to the length and swapped when out of order. -/
def substring (s : JSString) (start stop : Nat) : JSString :=
  let a := min start s.length
  let b := min stop s.length
  (s.take (max a b)).drop (min a b)

/-- The abstract operation `ToString` on a string or `undefined`, as a template
literal applies it to an interpolated value. -/
def toStr : Option JSString → JSString
  | some s => s
  | none => utf16 "undefined"

/-- The abstract operation `ToBoolean` on a string or `undefined`. -/
def truthy : Option JSString → Bool
  | some s => !s.isEmpty
  | none => false

/-- The method `Array.prototype.join` on an array of strings. -/
def join (sep : JSString) : List JSString → JSString
  | [] => []
  | [x] => x
  | x :: y :: rest => x ++ sep ++ join sep (y :: rest)

/-! ## `JSON.stringify` on flat objects of strings -/

/-- A lowercase hexadecimal digit. -/
def hexDigit (n : Nat) : Nat := if n < 10 then 48 + n else 87 + n

/-- The abstract operation `UnicodeEscape`: a backslash, `u` and four digits. -/
def unicodeEscape (c : Nat) : JSString :=
  [92, 117, hexDigit (c / 4096 % 16), hexDigit (c / 256 % 16),
    hexDigit (c / 16 % 16), hexDigit (c % 16)]

/-- A leading surrogate. -/
def isHighSurrogate (c : Nat) : Bool := 55296 ≤ c && c ≤ 56319

/-- A trailing surrogate. -/
def isLowSurrogate (c : Nat) : Bool := 56320 ≤ c && c ≤ 57343

/-- One code unit that is not part of a surrogate pair, as `QuoteJSONString`
writes it. -/
def quoteUnit (c : Nat) : JSString :=
  if c = 8 then [92, 98]
  else if c = 9 then [92, 116]
  else if c = 10 then [92, 110]
  else if c = 12 then [92, 102]
  else if c = 13 then [92, 114]
  else if c = 34 then [92, 34]
  else if c = 92 then [92, 92]
  else if c < 32 || isHighSurrogate c || isLowSurrogate c then unicodeEscape c
  else [c]

/-- The characters of `QuoteJSONString` between the two quotation marks. -/
def quoteBody : JSString → JSString
  | [] => []
  | [c] => quoteUnit c
  | c :: d :: rest =>
    if isHighSurrogate c && isLowSurrogate d then c :: d :: quoteBody rest
    else quoteUnit c ++ quoteBody (d :: rest)

/-- The abstract operation `QuoteJSONString`. -/
def quoteJSONString (s : JSString) : JSString := [34] ++ quoteBody s ++ [34]

/-- The function `JSON.stringify` on an object literal whose property values are
strings or `undefined`: properties in source order, those whose value is
`undefined` left out, no white space. -/
def JSON_stringify (props : List (String × Option JSString)) : JSString :=
  [123] ++
  join [44] (props.filterMap fun p =>
    p.2.map fun v => quoteJSONString (utf16 p.1) ++ [58] ++ quoteJSONString v) ++
  [125]

/-! ## Platform values -/

/-- One element of the `suggestions` array.  Each field is held as the string
`ToString` gives for it, which is all the template literal of `showTooltip`
uses. -/
structure Suggestion where
  word : JSString
  confidence : JSString
deriving DecidableEq, Repr

/-- The object `response.json()` resolves to: each of the two fields the script
reads is either absent (`none`) or an array of the expected shape. -/
structure Data where
  suggestions : Option (List Suggestion)
  summary_bullets : Option (List JSString)
deriving DecidableEq, Repr

/-- A thrown value or rejection reason. -/
inductive JSError where
  /-- the reason `fetch` rejected with -/
  | fetchRejection (reason : JSString)
  /-- the reason `response.json()` rejected with -/
  | jsonParse (reason : JSString)
  /-- the `TypeError` of calling a method on a property that is `undefined` -/
  | undefinedProperty (name : String)
deriving DecidableEq, Repr

/-- A resolved `fetch`: what its `json()` settles to. -/
structure Response where
  json : Except JSError Data

/-- The arguments of one `fetch` call. -/
structure Request where
  url : JSString
  method : JSString
  headers : List (String × Option JSString)
  body : JSString
deriving DecidableEq, Repr

/-- A call into the platform. -/
inductive Effect where
  | fetch (req : Request)
  | alert (text : JSString)
  | consoleLog (label : JSString) (value : Option (List Suggestion))
  | consoleError (label : JSString) (e : JSError)
deriving DecidableEq, Repr

/-- Whether an effect is a network call. -/
def Effect.isFetch : Effect → Bool
  | .fetch _ => true
  | _ => false

/-- Whether an effect is a dialog. -/
def Effect.isAlert : Effect → Bool
  | .alert _ => true
  | _ => false

/-! ## Handler bodies -/

/-- The outcome of running a piece of script: the platform calls it made, and
its value or the error it threw (for a promise chain: rejected with). -/
structure Run (α : Type) where
  effects : List Effect
  result : Except JSError α

/-- A value, no effect. -/
def Run.pure {α : Type} (a : α) : Run α := ⟨[], .ok a⟩

/-- Sequencing (`;`, `await`, `.then`): an error skips what follows. -/
def Run.bind {α β : Type} (m : Run α) (k : α → Run β) : Run β :=
  match m.result with
  | .error e => ⟨m.effects, .error e⟩
  | .ok a => ⟨m.effects ++ (k a).effects, (k a).result⟩

instance : Monad Run where
  pure := Run.pure
  bind := Run.bind

/-- One platform call that returns nothing. -/
def emit (e : Effect) : Run Unit := ⟨[e], .ok ()⟩

/-- The statement `throw`. -/
def raise {α : Type} (e : JSError) : Run α := ⟨[], .error e⟩

/-- The statement `try { body } catch (e) { handler }`. -/
def tryCatch (body : Run Unit) (handler : JSError → Run Unit) : Run Unit :=
  match body.result with
  | .ok a => ⟨body.effects, .ok a⟩
  | .error e => ⟨body.effects ++ (handler e).effects, (handler e).result⟩

/-- The call `fetch(url, init)`: recorded, then settled by the network. -/
def fetch (net : Except JSError Response) (req : Request) : Run Response :=
  ⟨[.fetch req], net⟩

/-- The call `response.json()`. -/
def Response.parse (r : Response) : Run Data := ⟨[], r.json⟩

/-! ## Page state -/

/-- One declaration of a CSS declaration block: a longhand property under its
CSS name, its value, and the `!important` flag.  The value is held as the
canonical text the engine serialises it to, which is what `style.<attribute>`
and `getPropertyValue` return: `rgb(51, 51, 51)` for a colour written `#333`. -/
structure Declaration where
  property : String
  value : JSString
  important : Bool
deriving DecidableEq, Repr

/-- The inline style of `document.body`: its declaration block, in order. -/
abbrev Style := List Declaration

/-- The page's CSS engine, which the script does not own: the canonical text of
the value that `text` parses to as a value of the longhand `property`, or `none`
when `text` is not a value of that property. -/
abbrev CSSEngine := String → JSString → Option JSString

/-- The CSSOM algorithm "IDL attribute to CSS property": every upper-case letter
becomes a hyphen and the letter in lower case (`backgroundColor` is
`background-color`). -/
def idlAttributeToCssProperty (idlName : String) : String :=
  String.mk (idlName.toList.foldr
    (fun c acc => if c.isUpper then '-' :: c.toLower :: acc else c :: acc) [])

/-- The declaration a block holds for a property, if any. -/
def Style.declared (s : Style) (property : String) : Option Declaration :=
  s.find? fun d => d.property == property

/-- The CSSOM algorithm "set a CSS declaration": afterwards the block holds the
target declaration for its property, and no other declaration is changed,
inserted or removed. -/
def Style.setDeclaration : Style → Declaration → Style
  | [], target => [target]
  | d :: rest, target =>
    if d.property == target.property then target :: rest
    else d :: Style.setDeclaration rest target

/-- The CSSOM method `removeProperty`. -/
def Style.removeProperty (s : Style) (property : String) : Style :=
  s.filter fun d => !(d.property == property)

/-- The CSSOM method `setProperty(property, text)` without a priority, on a
longhand property: the empty string removes the declaration, a text the engine
does not accept changes nothing, any other text sets the declaration to the
parsed value, not important. -/
def Style.setProperty (css : CSSEngine) (s : Style) (property : String)
    (text : JSString) : Style :=
  if text.isEmpty then s.removeProperty property
  else
    match css property text with
    | none => s
    | some value => s.setDeclaration ⟨property, value, false⟩

/-- The assignment `style.<idlName> = text`: `setProperty` on the CSS property
the IDL attribute stands for. -/
def Style.assign (css : CSSEngine) (s : Style) (idlName : String)
    (text : JSString) : Style :=
  s.setProperty css (idlAttributeToCssProperty idlName) text

/-- A CSS engine that knows the five values `applyDyslexiaFont` assigns, and
nothing else, with the canonical texts browsers give them: the family list, the
number and the length as they are written, the two hexadecimal colours as
`rgb(r, g, b)`.  It gives the theorems a concrete instance. -/
def browserEngine : CSSEngine := fun property text =>
  if property = "font-family" ∧ text = utf16 "Arial, sans-serif" then some text
  else if property = "line-height" ∧ text = utf16 "1.6" then some text
  else if property = "letter-spacing" ∧ text = utf16 "0.05em" then some text
  else if property = "background-color" ∧ text = utf16 "#FDFBF7" then
    some (utf16 "rgb(253, 251, 247)")
  else if property = "color" ∧ text = utf16 "#333" then some (utf16 "rgb(51, 51, 51)")
  else none

/-- The script's two module-level variables and the body's inline style. -/
structure World where
  BACKEND_URL : Option JSString
  USER_ID : Option JSString
  bodyStyle : Style
deriving DecidableEq, Repr

/-- The result of `browser.storage.local.get`: a key that was never stored is
absent. -/
structure StoredConfig where
  backendUrl : Option JSString
  userId : Option JSString
  fontEnabled : Option Bool
deriving DecidableEq, Repr

/-- A message from the popup or the background script; an absent field is
`none`, and so is a `command` that is not a string. -/
structure Message where
  command : Option JSString
  enable : Option Bool
  text : Option JSString
deriving DecidableEq, Repr

/-- The state before the stored configuration arrives:
`let BACKEND_URL = ""; let USER_ID = "";`. -/
def World.initial (style : Style) : World :=
  { BACKEND_URL := some [], USER_ID := some [], bodyStyle := style }

/-- What one delivery of a message leaves behind: the state, the platform calls
of the work it started with their outcome, and the value handed back to the
sender. -/
structure Handled where
  world : World
  run : Run Unit
  response : Option JSString

/-! ## The script -/

/-- The function `applyDyslexiaFont`. -/
def applyDyslexiaFont (css : CSSEngine) (w : World) : World :=
  let style := w.bodyStyle
  let style := style.assign css "fontFamily" (utf16 "Arial, sans-serif")
  let style := style.assign css "lineHeight" (utf16 "1.6")
  let style := style.assign css "letterSpacing" (utf16 "0.05em")
  let style := style.assign css "backgroundColor" (utf16 "#FDFBF7")
  let style := style.assign css "color" (utf16 "#333")
  { w with bodyStyle := style }

/-- The function `removeDyslexiaFont`: `document.body.style = ""` sets the
block's `cssText` to the empty string, which removes every declaration and
inserts the ones parsed from the empty string, none. -/
def removeDyslexiaFont (w : World) : World :=
  { w with bodyStyle := [] }

/-- The callback of `browser.storage.local.get([...]).then`. -/
def onConfig (css : CSSEngine) (res : StoredConfig) (w : World) : World :=
  let w1 := { w with BACKEND_URL := res.backendUrl, USER_ID := res.userId }
  if res.fontEnabled = some true then applyDyslexiaFont css w1 else w1

/-- The function `showTooltip`. -/
def showTooltip (data : Data) (original : JSString) : Run Unit := do
  emit (.consoleLog (utf16 "Suggestions:") data.suggestions)
  match data.suggestions with
  | none => raise (.undefinedProperty "suggestions")
  | some suggestions =>
    emit (.alert (utf16 "NeuroRead Suggestions for \x27" ++ original ++ utf16 "\x27:\n" ++
      join (utf16 "\n") (suggestions.map fun s =>
        utf16 "• " ++ s.word ++ utf16 " (" ++ s.confidence ++ utf16 ")")))

/-- The function `showCondensePanel`.  The promise chain has no `catch`: an
error in the result is a rejection nothing handles. -/
def showCondensePanel (w : World) (text : Option JSString)
    (net : Except JSError Response) : Run Unit :=
  if !truthy w.BACKEND_URL then emit (.alert (utf16 "Connect Backend First"))
  else do
    let r ← fetch net
      { url := toStr w.BACKEND_URL ++ utf16 "/view/condense"
        method := utf16 "POST"
        headers := [("Content-Type", some (utf16 "application/json"))]
        body := JSON_stringify [("text", text)] }
    let data ← r.parse
    match data.summary_bullets with
    | none => raise (.undefinedProperty "summary_bullets")
    | some bullets => emit (.alert (utf16 "Key Points:\n" ++ join (utf16 "\n") bullets))

/-- The listener of `browser.runtime.onMessage`.  It has no `return` and takes
no `sendResponse`. -/
def onMessage (css : CSSEngine) (w : World) (msg : Message)
    (net : Except JSError Response) : Handled :=
  if msg.command = some (utf16 "toggleFont") then
    if msg.enable = some true then ⟨applyDyslexiaFont css w, pure (), none⟩
    else ⟨removeDyslexiaFont w, pure (), none⟩
  else if msg.command = some (utf16 "analyzeSelection") then
    ⟨w, showCondensePanel w msg.text net, none⟩
  else ⟨w, pure (), none⟩

/-- The listener of `dblclick`; `selected` is `window.getSelection().toString()`
and `innerText` is `document.body.innerText`. -/
def dblclick (w : World) (selected innerText : JSString)
    (net : Except JSError Response) : Run Unit :=
  if !truthy w.BACKEND_URL then pure ()
  else
    let selection := trim selected
    if selection.length < 2 then pure ()
    else
      tryCatch
        (do
          let response ← fetch net
            { url := toStr w.BACKEND_URL ++ utf16 "/dyslexia/v2/suggest"
              method := utf16 "POST"
              headers := [("Content-Type", some (utf16 "application/json")),
                          ("X-User-ID", w.USER_ID)]
              body := JSON_stringify
                [("sentence", some (substring innerText 0 500)),
                 ("misspelled_word", some selection)] }
          let data ← response.parse
          showTooltip data selection)
        (fun e => emit (.consoleError (utf16 "Backend Error") e))

/-! ## Auxiliary facts -/

theorem truthy_iff (v : Option JSString) :
    truthy v = true ↔ ∃ url, v = some url ∧ url ≠ [] := by
  cases v with
  | none => simp [truthy]
  | some s => cases s <;> simp [truthy]

theorem trim_eq_nil_of_forall (s : JSString) (h : ∀ c ∈ s, isTrimmable c = true) :
    trim s = [] := by
  have h1 : s.dropWhile isTrimmable = [] := List.dropWhile_eq_nil_iff.mpr h
  simp [trim, h1]

theorem substring_zero (s : JSString) (n : Nat) : substring s 0 n = s.take n := by
  simp only [substring, Nat.zero_min, Nat.zero_le, max_eq_right, min_eq_left, List.drop_zero]
  rcases Nat.le_total n s.length with h | h
  · rw [Nat.min_eq_left h]
  · rw [Nat.min_eq_right h, List.take_of_length_le h, List.take_of_length_le (le_refl _)]

theorem join_eq_intercalate (sep : JSString) (xs : List JSString) :
    join sep xs = List.intercalate sep xs := by
  induction xs with
  | nil => rfl
  | cons x rest ih =>
    cases rest with
    | nil => simp [join, List.intercalate]
    | cons y rest =>
      rw [join, ih]
      simp [List.intercalate, List.append_assoc]

/-- The suggest request built by the `dblclick` listener. -/
theorem dblclick_effects_of_guards (w : World) (selected innerText : JSString)
    (net : Except JSError Response)
    (h : truthy w.BACKEND_URL = true ∧ 2 ≤ (trim selected).length) :
    ∃ rest, (dblclick w selected innerText net).effects =
      Effect.fetch
        { url := toStr w.BACKEND_URL ++ utf16 "/dyslexia/v2/suggest"
          method := utf16 "POST"
          headers := [("Content-Type", some (utf16 "application/json")),
                      ("X-User-ID", w.USER_ID)]
          body := JSON_stringify
            [("sentence", some (substring innerText 0 500)),
             ("misspelled_word", some (trim selected))] } :: rest ∧
      ∀ x ∈ rest, x.isFetch = false := by
  obtain ⟨h1, h2⟩ := h
  have h2 : ¬ (trim selected).length < 2 := by omega
  rcases net with e | ⟨e | ⟨sg, sb⟩⟩
  · simp [dblclick, h1, h2, tryCatch, fetch, bind, Run.bind, emit, Effect.isFetch]
  · simp [dblclick, h1, h2, tryCatch, fetch, bind, Run.bind, emit, Effect.isFetch,
      Response.parse]
  · cases sg <;>
      simp [dblclick, h1, h2, tryCatch, fetch, bind, Run.bind, emit, Effect.isFetch,
        Response.parse, showTooltip, raise]

theorem dblclick_of_not_guards (w : World) (selected innerText : JSString)
    (net : Except JSError Response)
    (h : ¬ (truthy w.BACKEND_URL = true ∧ 2 ≤ (trim selected).length)) :
    (dblclick w selected innerText net).effects = [] ∧
      (dblclick w selected innerText net).result = .ok () := by
  by_cases h1 : truthy w.BACKEND_URL = true
  · have h2 : (trim selected).length < 2 := by
      by_contra hc
      exact h ⟨h1, by omega⟩
    simp [dblclick, h1, h2, pure, Run.pure]
  · simp [dblclick, h1, pure, Run.pure]

/-! ## Suggestion requester: when a request is sent -/

/-- C1: for every backend URL and every selected text, the double-click handler
calls `fetch` if and only if the backend URL is a non-empty string and the
trimmed selection has length at least 2 (length as `String.prototype.length`
counts it, in UTF-16 code units); in every other case it makes no platform call
at all, so no network call and no dialog; a selection made only of white space,
of any length, is such a case. -/
theorem dblclick_request_iff (w : World) (selected innerText : JSString)
    (net : Except JSError Response) :
    ((∃ req, Effect.fetch req ∈ (dblclick w selected innerText net).effects) ↔
      ((∃ url, w.BACKEND_URL = some url ∧ url ≠ []) ∧ 2 ≤ (trim selected).length)) ∧
    (¬ ((∃ url, w.BACKEND_URL = some url ∧ url ≠ []) ∧ 2 ≤ (trim selected).length) →
      (dblclick w selected innerText net).effects = []) ∧
    ((∀ c ∈ selected, isTrimmable c = true) →
      (dblclick w selected innerText net).effects = []) := by
  rw [← truthy_iff]
  refine ⟨⟨fun hreq => ?_, fun hg => ?_⟩, fun hn => ?_, fun hws => ?_⟩
  · by_contra hn
    obtain ⟨req, hmem⟩ := hreq
    rw [(dblclick_of_not_guards w selected innerText net hn).1] at hmem
    exact List.not_mem_nil _ hmem
  · obtain ⟨rest, heq, _⟩ := dblclick_effects_of_guards w selected innerText net hg
    exact ⟨_, by rw [heq]; exact List.mem_cons_self _ _⟩
  · exact (dblclick_of_not_guards w selected innerText net hn).1
  · refine (dblclick_of_not_guards w selected innerText net ?_).1
    rintro ⟨-, hlen⟩
    rw [trim_eq_nil_of_forall selected hws] at hlen
    simp at hlen

/-- C1 at a configured backend and the one-letter selection `" a "`: nothing is
sent and nothing is shown. -/
theorem dblclick_request_iff_witness :
    (dblclick ⟨some (utf16 "http://localhost:8000"), some (utf16 "u1"), []⟩
      (utf16 " a ") (utf16 "a page") (.error (.fetchRejection []))).effects = [] :=
  (dblclick_request_iff ⟨some (utf16 "http://localhost:8000"), some (utf16 "u1"), []⟩
    (utf16 " a ") (utf16 "a page") (.error (.fetchRejection []))).2.1
    (fun h => absurd h.2 (by decide))

/-- C2: once the stored configuration with a non-empty `backendUrl` has been
read, a double-click on a selection whose trimmed length is at least 2 calls
`fetch` exactly once, whatever the network answers: method POST, URL the backend
URL followed by `/dyslexia/v2/suggest`, headers `Content-Type: application/json`
and `X-User-ID` the stored user id, body the JSON text of an object whose
`sentence` is the first 500 code units of the body text (all of it when it has
at most 500) and whose `misspelled_word` is the trimmed selection. -/
theorem dblclick_request (css : CSSEngine) (res : StoredConfig) (w0 : World)
    (url selected innerText : JSString) (net : Except JSError Response)
    (hurl : res.backendUrl = some url) (hne : url ≠ [])
    (hsel : 2 ≤ (trim selected).length) :
    (dblclick (onConfig css res w0) selected innerText net).effects.filter Effect.isFetch =
      [Effect.fetch
        { url := url ++ utf16 "/dyslexia/v2/suggest"
          method := utf16 "POST"
          headers := [("Content-Type", some (utf16 "application/json")),
                      ("X-User-ID", res.userId)]
          body := JSON_stringify
            [("sentence", some (innerText.take 500)),
             ("misspelled_word", some (trim selected))] }] ∧
    (innerText.length ≤ 500 → innerText.take 500 = innerText) := by
  have hw : (onConfig css res w0).BACKEND_URL = some url ∧
      (onConfig css res w0).USER_ID = res.userId := by
    unfold onConfig applyDyslexiaFont
    split <;> simp [hurl]
  have hg : truthy (onConfig css res w0).BACKEND_URL = true ∧ 2 ≤ (trim selected).length :=
    ⟨(truthy_iff _).mpr ⟨url, hw.1, hne⟩, hsel⟩
  obtain ⟨rest, heq, hrest⟩ := dblclick_effects_of_guards _ selected innerText net hg
  refine ⟨?_, fun h => List.take_of_length_le h⟩
  rw [heq, hw.1, hw.2, substring_zero]
  have hnil : rest.filter Effect.isFetch = [] := by
    rw [List.filter_eq_nil_iff]
    intro x hx
    simp [hrest x hx]
  simp [List.filter_cons, Effect.isFetch, hnil, toStr]

/-- C2 with backend `http://localhost:8000`, user `u1`, selection `" teh "` on the
page `I saw teh cat`, the network down. -/
theorem dblclick_request_witness :
    (dblclick (onConfig browserEngine
        ⟨some (utf16 "http://localhost:8000"), some (utf16 "u1"), none⟩ (World.initial []))
      (utf16 " teh ") (utf16 "I saw teh cat")
      (.error (.fetchRejection []))).effects.filter Effect.isFetch =
      [Effect.fetch
        { url := utf16 "http://localhost:8000" ++ utf16 "/dyslexia/v2/suggest"
          method := utf16 "POST"
          headers := [("Content-Type", some (utf16 "application/json")),
                      ("X-User-ID", some (utf16 "u1"))]
          body := JSON_stringify
            [("sentence", some ((utf16 "I saw teh cat").take 500)),
             ("misspelled_word", some (trim (utf16 " teh ")))] }] ∧
    ((utf16 "I saw teh cat").length ≤ 500 →
      (utf16 "I saw teh cat").take 500 = utf16 "I saw teh cat") :=
  dblclick_request browserEngine ⟨some (utf16 "http://localhost:8000"), some (utf16 "u1"), none⟩
    (World.initial []) (utf16 "http://localhost:8000") (utf16 " teh ") (utf16 "I saw teh cat")
    (.error (.fetchRejection [])) rfl (by decide) (by decide)

/-! ## Condense requester -/

theorem keyPoints_ne_prompt (x : JSString) :
    utf16 "Key Points:\n" ++ x ≠ utf16 "Connect Backend First" := by
  intro h
  have h1 : (utf16 "Key Points:\n" ++ x).head? = some 75 := rfl
  have h2 : (utf16 "Connect Backend First").head? = some 67 := rfl
  rw [h, h2] at h1
  exact absurd h1 (by decide)

theorem showCondensePanel_unset (w : World) (text : Option JSString)
    (net : Except JSError Response) (h : truthy w.BACKEND_URL = false) :
    showCondensePanel w text net = emit (.alert (utf16 "Connect Backend First")) := by
  simp [showCondensePanel, h]

theorem showCondensePanel_set (w : World) (text : Option JSString)
    (net : Except JSError Response) (h : truthy w.BACKEND_URL = true) :
    ∃ rest, (showCondensePanel w text net).effects =
      Effect.fetch
        { url := toStr w.BACKEND_URL ++ utf16 "/view/condense"
          method := utf16 "POST"
          headers := [("Content-Type", some (utf16 "application/json"))]
          body := JSON_stringify [("text", text)] } :: rest ∧
      (∀ x ∈ rest, x.isFetch = false) ∧
      (∀ x ∈ rest, x ≠ Effect.alert (utf16 "Connect Backend First")) ∧
      (rest = [] ∨ ∃ bullets, (∃ r d, net = .ok r ∧ r.json = .ok d ∧
          d.summary_bullets = some bullets) ∧
        rest = [Effect.alert (utf16 "Key Points:\n" ++ join (utf16 "\n") bullets)]) := by
  rcases net with e | ⟨e | ⟨sg, sb⟩⟩
  · simp [showCondensePanel, h, fetch, bind, Run.bind]
  · simp [showCondensePanel, h, fetch, bind, Run.bind, Response.parse]
  · cases sb with
    | none => simp [showCondensePanel, h, fetch, bind, Run.bind, Response.parse, raise]
    | some bullets =>
      refine ⟨[Effect.alert (utf16 "Key Points:\n" ++ join (utf16 "\n") bullets)], ?_, ?_, ?_, ?_⟩
      · simp [showCondensePanel, h, fetch, bind, Run.bind, Response.parse, emit]
      · simp [Effect.isFetch]
      · intro x hx
        rw [List.mem_singleton] at hx
        rw [hx]
        intro heq
        exact keyPoints_ne_prompt _ (Effect.alert.inj heq)
      · exact Or.inr ⟨bullets, ⟨_, _, rfl, rfl, rfl⟩, rfl⟩

theorem onMessage_analyzeSelection (css : CSSEngine) (w : World) (msg : Message)
    (net : Except JSError Response)
    (hcmd : msg.command = some (utf16 "analyzeSelection")) :
    onMessage css w msg net = ⟨w, showCondensePanel w msg.text net, none⟩ := by
  have hne : utf16 "analyzeSelection" ≠ utf16 "toggleFont" := by decide
  simp [onMessage, hcmd, hne]

/-- C3: for every input text, an `analyzeSelection` message carrying it reaches
`showCondensePanel`; with the backend URL unset (`undefined` or the empty
string) the only platform call is the dialog `Connect Backend First`, so no
network call; with the backend URL a non-empty string there is exactly one
`fetch`, a POST to the backend URL followed by `/view/condense` with header
`Content-Type: application/json` and body the JSON text of `{text: <input>}`,
and the prompt dialog is not shown; for the text `Foo bar.` that body is
`{"text":"Foo bar."}`. -/
theorem analyzeSelection_condense (css : CSSEngine) (w : World) (msg : Message)
    (text : JSString) (net : Except JSError Response)
    (hcmd : msg.command = some (utf16 "analyzeSelection")) (htext : msg.text = some text) :
    ((w.BACKEND_URL = none ∨ w.BACKEND_URL = some []) →
      (onMessage css w msg net).run.effects = [Effect.alert (utf16 "Connect Backend First")]) ∧
    (∀ url, w.BACKEND_URL = some url → url ≠ [] →
      (onMessage css w msg net).run.effects.filter Effect.isFetch =
        [Effect.fetch
          { url := url ++ utf16 "/view/condense"
            method := utf16 "POST"
            headers := [("Content-Type", some (utf16 "application/json"))]
            body := JSON_stringify [("text", some text)] }] ∧
      Effect.alert (utf16 "Connect Backend First") ∉ (onMessage css w msg net).run.effects) ∧
    JSON_stringify [("text", some (utf16 "Foo bar."))] =
      utf16 "\x7b\"text\":\"Foo bar.\"\x7d" := by
  rw [onMessage_analyzeSelection css w msg net hcmd, htext]
  refine ⟨fun hun => ?_, fun url hurl hne => ?_, by decide⟩
  · have hf : truthy w.BACKEND_URL = false := by
      rcases hun with h | h <;> simp [h, truthy]
    simp [showCondensePanel_unset w _ net hf, emit]
  · have ht : truthy w.BACKEND_URL = true := (truthy_iff _).mpr ⟨url, hurl, hne⟩
    obtain ⟨rest, heq, hnf, hnp, -⟩ := showCondensePanel_set w (some text) net ht
    simp only [heq, hurl, toStr]
    have hnil : rest.filter Effect.isFetch = [] := by
      rw [List.filter_eq_nil_iff]
      intro x hx
      simp [hnf x hx]
    refine ⟨by simp [List.filter_cons, Effect.isFetch, hnil], ?_⟩
    intro hmem
    rcases List.mem_cons.mp hmem with h | h
    · cases h
    · exact hnp _ h rfl

/-- C3 for the message `{command: "analyzeSelection", text: "Foo bar."}` in the
state the script starts in, where the backend URL is the empty string. -/
theorem analyzeSelection_condense_witness :
    (onMessage browserEngine (World.initial [])
      ⟨some (utf16 "analyzeSelection"), none, some (utf16 "Foo bar.")⟩
      (.error (.fetchRejection []))).run.effects =
      [Effect.alert (utf16 "Connect Backend First")] :=
  (analyzeSelection_condense browserEngine (World.initial [])
    ⟨some (utf16 "analyzeSelection"), none, some (utf16 "Foo bar.")⟩ (utf16 "Foo bar.")
    (.error (.fetchRejection [])) rfl rfl).1 (Or.inr rfl)

/-- C4: for every condense response whose `summary_bullets` is a list of
strings, reached with the backend URL set, exactly one dialog is shown and its
text is `Key Points:` and a newline followed by the bullets, in response order,
separated by single newlines; for the bullets `Point A`, `Point B` that text is
`Key Points:\nPoint A\nPoint B`. -/
theorem condense_dialog_text (w : World) (url : JSString) (text : Option JSString)
    (d : Data) (bullets : List JSString)
    (hurl : w.BACKEND_URL = some url) (hne : url ≠ [])
    (hb : d.summary_bullets = some bullets) :
    (showCondensePanel w text (.ok ⟨.ok d⟩)).effects.filter Effect.isAlert =
      [Effect.alert (utf16 "Key Points:\n" ++ List.intercalate (utf16 "\n") bullets)] ∧
    (bullets = [utf16 "Point A", utf16 "Point B"] →
      (showCondensePanel w text (.ok ⟨.ok d⟩)).effects.filter Effect.isAlert =
        [Effect.alert (utf16 "Key Points:\nPoint A\nPoint B")]) := by
  have ht : truthy w.BACKEND_URL = true := (truthy_iff _).mpr ⟨url, hurl, hne⟩
  have main : (showCondensePanel w text (.ok ⟨.ok d⟩)).effects.filter Effect.isAlert =
      [Effect.alert (utf16 "Key Points:\n" ++ List.intercalate (utf16 "\n") bullets)] := by
    simp [showCondensePanel, ht, fetch, bind, Run.bind, Response.parse, emit, hb,
      List.filter_cons, Effect.isAlert, join_eq_intercalate]
  refine ⟨main, fun hpts => ?_⟩
  rw [main, hpts]
  decide

/-- C4 for the response `{summary_bullets: ["Point A", "Point B"]}`. -/
theorem condense_dialog_text_witness :
    (showCondensePanel ⟨some (utf16 "http://localhost:8000"), some [], []⟩ (some (utf16 "Foo bar."))
      (.ok ⟨.ok ⟨none, some [utf16 "Point A", utf16 "Point B"]⟩⟩)).effects.filter Effect.isAlert =
      [Effect.alert (utf16 "Key Points:\nPoint A\nPoint B")] :=
  (condense_dialog_text ⟨some (utf16 "http://localhost:8000"), some [], []⟩
    (utf16 "http://localhost:8000") (some (utf16 "Foo bar."))
    ⟨none, some [utf16 "Point A", utf16 "Point B"]⟩ [utf16 "Point A", utf16 "Point B"]
    rfl (by decide) rfl).2 rfl

/-! ## Suggestion requester: rendering and failures -/

/-- C5: for every suggest response whose `suggestions` is a list of
word/confidence pairs and every original selection, `showTooltip` shows exactly
one dialog; its text is the header line `NeuroRead Suggestions for '<original>':`
followed by one entry per suggestion, in response order and separated by
newlines, each entry being a bullet, a space and `<word> (<confidence>)`; for the
single suggestion `their` with confidence `0.9` the text contains `their (0.9)`,
also when the response arrives through the double-click handler. -/
theorem showTooltip_dialog (suggestions : List Suggestion) (bullets : Option (List JSString))
    (original : JSString) :
    (showTooltip ⟨some suggestions, bullets⟩ original).effects.filter Effect.isAlert =
      [Effect.alert (utf16 "NeuroRead Suggestions for \x27" ++ original ++ utf16 "\x27:\n" ++
        List.intercalate (utf16 "\n") (suggestions.map fun s =>
          utf16 "• " ++ (s.word ++ utf16 " (" ++ s.confidence ++ utf16 ")")))] ∧
    (∃ text, (showTooltip ⟨some [⟨utf16 "their", utf16 "0.9"⟩], bullets⟩ original).effects.filter
        Effect.isAlert = [Effect.alert text] ∧ utf16 "their (0.9)" <:+: text) ∧
    (∃ text, Effect.alert text ∈
        (dblclick ⟨some (utf16 "http://localhost:8000"), some (utf16 "u1"), []⟩ (utf16 "thier")
          (utf16 "It is thier house.")
          (.ok ⟨.ok ⟨some [⟨utf16 "their", utf16 "0.9"⟩], none⟩⟩)).effects ∧
      utf16 "their (0.9)" <:+: text) := by
  have main : ∀ ss : List Suggestion,
      (showTooltip ⟨some ss, bullets⟩ original).effects.filter Effect.isAlert =
      [Effect.alert (utf16 "NeuroRead Suggestions for \x27" ++ original ++ utf16 "\x27:\n" ++
        List.intercalate (utf16 "\n") (ss.map fun s =>
          utf16 "• " ++ (s.word ++ utf16 " (" ++ s.confidence ++ utf16 ")")))] := by
    intro ss
    simp [showTooltip, bind, Run.bind, emit, List.filter_cons, Effect.isAlert,
      join_eq_intercalate, List.append_assoc]
  refine ⟨main suggestions, ⟨_, main _, ?_⟩,
    ⟨utf16 "NeuroRead Suggestions for \x27thier\x27:\n• their (0.9)", ?_, ?_⟩⟩
  · exact ⟨utf16 "NeuroRead Suggestions for \x27" ++ original ++ utf16 "\x27:\n" ++ utf16 "• ",
      [], by
        have h : utf16 "their (0.9)" = utf16 "their" ++ (utf16 " (" ++ (utf16 "0.9" ++ utf16 ")")) := by
          decide
        simp [List.intercalate, List.append_assoc, h]⟩
  · decide
  · exact ⟨utf16 "NeuroRead Suggestions for \x27thier\x27:\n• ", [], by decide⟩

/-- C6: on the suggestion path, when `fetch` rejects or `response.json()` fails,
the handler catches the failure: its own promise is fulfilled, no dialog is
shown, and, when the two guards let the request out, the platform calls are
exactly that request followed by `console.error("Backend Error", e)` with the
failure `e`. -/
theorem dblclick_failure_caught (w : World) (selected innerText : JSString) (e : JSError)
    (net : Except JSError Response)
    (hnet : net = .error e ∨ net = .ok ⟨.error e⟩) :
    (dblclick w selected innerText net).result = .ok () ∧
    (dblclick w selected innerText net).effects.filter Effect.isAlert = [] ∧
    (truthy w.BACKEND_URL = true → 2 ≤ (trim selected).length →
      ∃ req, (dblclick w selected innerText net).effects =
        [Effect.fetch req, Effect.consoleError (utf16 "Backend Error") e]) := by
  by_cases hg : truthy w.BACKEND_URL = true ∧ 2 ≤ (trim selected).length
  · obtain ⟨h1, h2⟩ := hg
    have h3 : ¬ (trim selected).length < 2 := by omega
    rcases hnet with h | h <;> subst h <;>
      simp [dblclick, h1, h3, tryCatch, fetch, bind, Run.bind, emit, Effect.isAlert,
        Response.parse]
  · obtain ⟨he, hr⟩ := dblclick_of_not_guards w selected innerText net hg
    refine ⟨hr, by simp [he], fun h1 h2 => absurd ⟨h1, h2⟩ hg⟩

/-- C6 for a rejected `fetch` after a double-click on `teh`. -/
theorem dblclick_failure_caught_witness :
    (dblclick ⟨some (utf16 "http://localhost:8000"), some (utf16 "u1"), []⟩ (utf16 "teh")
      (utf16 "I saw teh cat") (.error (.fetchRejection (utf16 "NetworkError")))).result = .ok () :=
  (dblclick_failure_caught ⟨some (utf16 "http://localhost:8000"), some (utf16 "u1"), []⟩
    (utf16 "teh") (utf16 "I saw teh cat") (.fetchRejection (utf16 "NetworkError"))
    (.error (.fetchRejection (utf16 "NetworkError"))) (Or.inl rfl)).1

/-- C7, as the claim states it, fails on the suggest path: a response without
`suggestions` makes `showTooltip` throw inside the handler's `try`, the handler
catches and logs it, and nothing propagates. -/
theorem suggest_missing_field_is_caught :
    ¬ (∃ e, (dblclick ⟨some (utf16 "http://localhost:8000"), some (utf16 "u1"), []⟩ (utf16 "teh")
        (utf16 "I saw teh cat") (.ok ⟨.ok ⟨none, none⟩⟩)).result = .error e) ∧
    (dblclick ⟨some (utf16 "http://localhost:8000"), some (utf16 "u1"), []⟩ (utf16 "teh")
        (utf16 "I saw teh cat") (.ok ⟨.ok ⟨none, none⟩⟩)).effects.getLast? =
      some (Effect.consoleError (utf16 "Backend Error") (.undefinedProperty "suggestions")) := by
  refine ⟨?_, by decide⟩
  rintro ⟨e, h⟩
  have hok : (dblclick ⟨some (utf16 "http://localhost:8000"), some (utf16 "u1"), []⟩ (utf16 "teh")
      (utf16 "I saw teh cat") (.ok ⟨.ok ⟨none, none⟩⟩)).result = .ok () := rfl
  rw [hok] at h
  cases h

/-- C7, amended: a response missing the expected field is not validated.  On the
condense path reading `summary_bullets` fails at render time, no dialog is
shown, and the failure is an unhandled rejection, as a rejected `fetch` and a
failed `response.json()` are on that path.  On the suggest path reading
`suggestions` fails after `console.log("Suggestions:", undefined)`, inside the
handler's `try`: the failure is caught and logged with `console.error`, no
dialog is shown and the handler's promise is fulfilled. -/
theorem missing_field_propagation (w : World) (url selected innerText : JSString)
    (text : Option JSString) (d : Data)
    (hurl : w.BACKEND_URL = some url) (hne : url ≠ []) :
    (d.summary_bullets = none →
      (showCondensePanel w text (.ok ⟨.ok d⟩)).result =
          .error (.undefinedProperty "summary_bullets") ∧
        (showCondensePanel w text (.ok ⟨.ok d⟩)).effects.filter Effect.isAlert = []) ∧
    (∀ e, (showCondensePanel w text (.error e)).result = .error e ∧
      (showCondensePanel w text (.ok ⟨.error e⟩)).result = .error e) ∧
    (d.suggestions = none → 2 ≤ (trim selected).length →
      (dblclick w selected innerText (.ok ⟨.ok d⟩)).result = .ok () ∧
        ∃ req, (dblclick w selected innerText (.ok ⟨.ok d⟩)).effects =
          [Effect.fetch req, Effect.consoleLog (utf16 "Suggestions:") none,
            Effect.consoleError (utf16 "Backend Error") (.undefinedProperty "suggestions")]) := by
  have ht : truthy w.BACKEND_URL = true := (truthy_iff _).mpr ⟨url, hurl, hne⟩
  refine ⟨fun hb => ?_, fun e => ?_, fun hs hlen => ?_⟩
  · simp [showCondensePanel, ht, fetch, bind, Run.bind, Response.parse, raise, hb,
      Effect.isAlert]
  · simp [showCondensePanel, ht, fetch, bind, Run.bind, Response.parse]
  · have h3 : ¬ (trim selected).length < 2 := by omega
    simp [dblclick, ht, h3, tryCatch, fetch, bind, Run.bind, emit, Response.parse,
      showTooltip, raise, hs]

/-- C7, amended, for a response `{}` to a condense request. -/
theorem missing_field_propagation_witness :
    (showCondensePanel ⟨some (utf16 "http://localhost:8000"), some [], []⟩ (some (utf16 "Foo bar."))
        (.ok ⟨.ok ⟨none, none⟩⟩)).result = .error (.undefinedProperty "summary_bullets") ∧
      (showCondensePanel ⟨some (utf16 "http://localhost:8000"), some [], []⟩
        (some (utf16 "Foo bar.")) (.ok ⟨.ok ⟨none, none⟩⟩)).effects.filter Effect.isAlert = [] :=
  (missing_field_propagation ⟨some (utf16 "http://localhost:8000"), some [], []⟩
    (utf16 "http://localhost:8000") (utf16 "teh") (utf16 "I saw teh cat") (some (utf16 "Foo bar."))
    ⟨none, none⟩ rfl (by decide)).1 rfl

/-! ## Style toggle and message listener -/

theorem Style.declared_cons (d : Declaration) (rest : Style) (p : String) :
    Style.declared (d :: rest) p = if d.property = p then some d else Style.declared rest p := by
  by_cases h : d.property = p
  · simp [Style.declared, List.find?, h]
  · have hb : (d.property == p) = false := by simpa using h
    simp [Style.declared, List.find?, hb, h]

theorem Style.declared_setDeclaration (s : Style) (target : Declaration) (p : String) :
    (s.setDeclaration target).declared p =
      if p = target.property then some target else s.declared p := by
  induction s with
  | nil =>
    rw [Style.setDeclaration, Style.declared_cons]
    by_cases h : p = target.property
    · simp [h]
    · have h2 : ¬ target.property = p := fun h3 => h h3.symm
      simp [h, h2, Style.declared]
  | cons d rest ih =>
    rw [Style.setDeclaration]
    by_cases hd : d.property = target.property
    · simp only [hd, beq_self_eq_true, if_true, Style.declared_cons]
      by_cases h : p = target.property
      · simp [h]
      · have h2 : ¬ target.property = p := fun h3 => h h3.symm
        simp [h, h2]
    · have hb : (d.property == target.property) = false := by simpa using hd
      simp only [hb, Bool.false_eq_true, if_false, Style.declared_cons, ih]
      by_cases h3 : d.property = p
      · have h : ¬ p = target.property := fun h4 => hd (h3.trans h4)
        simp [h3, h]
      · simp [h3]

theorem Style.declared_removeProperty_ne (s : Style) (property p : String)
    (h : p ≠ property) : (s.removeProperty property).declared p = s.declared p := by
  induction s with
  | nil => rfl
  | cons d rest ih =>
    unfold Style.removeProperty at ih ⊢
    by_cases hd : d.property = property
    · have h2 : ¬ property = p := fun h3 => h h3.symm
      simp [List.filter_cons, hd, Style.declared_cons, h2, ih]
    · simp [List.filter_cons, hd, Style.declared_cons, ih]

theorem Style.declared_setProperty_ne (css : CSSEngine) (s : Style) (property p : String)
    (text : JSString) (h : p ≠ property) :
    (s.setProperty css property text).declared p = s.declared p := by
  unfold Style.setProperty
  split
  · exact Style.declared_removeProperty_ne s property p h
  · split
    · rfl
    · rw [Style.declared_setDeclaration]
      simp [h]

theorem Style.declared_setProperty_accepted (css : CSSEngine) (s : Style) (property : String)
    (text value : JSString) (hne : text ≠ []) (h : css property text = some value) :
    (s.setProperty css property text).declared property = some ⟨property, value, false⟩ := by
  have he : text.isEmpty = false := by cases text <;> simp_all
  simp [Style.setProperty, he, h, Style.declared_setDeclaration]

theorem applyDyslexiaFont_declared (css : CSSEngine) (w : World)
    (family height spacing background color : JSString)
    (h1 : css "font-family" (utf16 "Arial, sans-serif") = some family)
    (h2 : css "line-height" (utf16 "1.6") = some height)
    (h3 : css "letter-spacing" (utf16 "0.05em") = some spacing)
    (h4 : css "background-color" (utf16 "#FDFBF7") = some background)
    (h5 : css "color" (utf16 "#333") = some color) :
    (applyDyslexiaFont css w).bodyStyle.declared "font-family" =
      some ⟨"font-family", family, false⟩ ∧
    (applyDyslexiaFont css w).bodyStyle.declared "line-height" =
      some ⟨"line-height", height, false⟩ ∧
    (applyDyslexiaFont css w).bodyStyle.declared "letter-spacing" =
      some ⟨"letter-spacing", spacing, false⟩ ∧
    (applyDyslexiaFont css w).bodyStyle.declared "background-color" =
      some ⟨"background-color", background, false⟩ ∧
    (applyDyslexiaFont css w).bodyStyle.declared "color" = some ⟨"color", color, false⟩ := by
  have i1 : idlAttributeToCssProperty "fontFamily" = "font-family" := by decide
  have i2 : idlAttributeToCssProperty "lineHeight" = "line-height" := by decide
  have i3 : idlAttributeToCssProperty "letterSpacing" = "letter-spacing" := by decide
  have i4 : idlAttributeToCssProperty "backgroundColor" = "background-color" := by decide
  have i5 : idlAttributeToCssProperty "color" = "color" := by decide
  have n1 : utf16 "Arial, sans-serif" ≠ [] := by decide
  have n2 : utf16 "1.6" ≠ [] := by decide
  have n3 : utf16 "0.05em" ≠ [] := by decide
  have n4 : utf16 "#FDFBF7" ≠ [] := by decide
  have n5 : utf16 "#333" ≠ [] := by decide
  simp only [applyDyslexiaFont, Style.assign, i1, i2, i3, i4, i5]
  refine ⟨?_, ?_, ?_, ?_, ?_⟩
  · rw [Style.declared_setProperty_ne _ _ _ _ _ (by decide),
      Style.declared_setProperty_ne _ _ _ _ _ (by decide),
      Style.declared_setProperty_ne _ _ _ _ _ (by decide),
      Style.declared_setProperty_ne _ _ _ _ _ (by decide),
      Style.declared_setProperty_accepted _ _ _ _ _ n1 h1]
  · rw [Style.declared_setProperty_ne _ _ _ _ _ (by decide),
      Style.declared_setProperty_ne _ _ _ _ _ (by decide),
      Style.declared_setProperty_ne _ _ _ _ _ (by decide),
      Style.declared_setProperty_accepted _ _ _ _ _ n2 h2]
  · rw [Style.declared_setProperty_ne _ _ _ _ _ (by decide),
      Style.declared_setProperty_ne _ _ _ _ _ (by decide),
      Style.declared_setProperty_accepted _ _ _ _ _ n3 h3]
  · rw [Style.declared_setProperty_ne _ _ _ _ _ (by decide),
      Style.declared_setProperty_accepted _ _ _ _ _ n4 h4]
  · rw [Style.declared_setProperty_accepted _ _ _ _ _ n5 h5]

theorem applyDyslexiaFont_frame (css : CSSEngine) (w : World) (p : String)
    (hp : p ∉ ["font-family", "line-height", "letter-spacing", "background-color", "color"]) :
    (applyDyslexiaFont css w).bodyStyle.declared p = w.bodyStyle.declared p := by
  have i1 : idlAttributeToCssProperty "fontFamily" = "font-family" := by decide
  have i2 : idlAttributeToCssProperty "lineHeight" = "line-height" := by decide
  have i3 : idlAttributeToCssProperty "letterSpacing" = "letter-spacing" := by decide
  have i4 : idlAttributeToCssProperty "backgroundColor" = "background-color" := by decide
  have i5 : idlAttributeToCssProperty "color" = "color" := by decide
  simp only [List.mem_cons, List.mem_singleton, List.not_mem_nil, or_false, not_or] at hp
  obtain ⟨h1, h2, h3, h4, h5⟩ := hp
  simp only [applyDyslexiaFont, Style.assign, i1, i2, i3, i4, i5]
  rw [Style.declared_setProperty_ne _ _ _ _ _ h5, Style.declared_setProperty_ne _ _ _ _ _ h4,
    Style.declared_setProperty_ne _ _ _ _ _ h3, Style.declared_setProperty_ne _ _ _ _ _ h2,
    Style.declared_setProperty_ne _ _ _ _ _ h1]

theorem applyDyslexiaFont_vars (css : CSSEngine) (w : World) :
    (applyDyslexiaFont css w).BACKEND_URL = w.BACKEND_URL ∧
    (applyDyslexiaFont css w).USER_ID = w.USER_ID :=
  ⟨rfl, rfl⟩

/-- C8, as the claim states it, fails at the colours: in a browser the body's
`color` after `{command: "toggleFont", enable: true}` is the canonical text
`rgb(51, 51, 51)`, not the text `#333` that was assigned. -/
theorem toggleFont_color_is_canonical :
    ((onMessage browserEngine (World.initial []) ⟨some (utf16 "toggleFont"), some true, none⟩
        (.error (.fetchRejection []))).world.bodyStyle.declared "color").map Declaration.value =
      some (utf16 "rgb(51, 51, 51)") ∧
    ((onMessage browserEngine (World.initial []) ⟨some (utf16 "toggleFont"), some true, none⟩
        (.error (.fetchRejection []))).world.bodyStyle.declared "color").map Declaration.value ≠
      some (utf16 "#333") := by
  decide

/-- C8, amended: for every initial inline style of the body and every CSS engine
that accepts the five fixed texts, the message `{command: "toggleFont", enable:
true}` sets the declarations `font-family`, `line-height`, `letter-spacing`,
`background-color` and `color` to the values the engine parses from
`Arial, sans-serif`, `1.6`, `0.05em`, `#FDFBF7` and `#333`, not important; whatever
the engine, the declaration of every other property is left as it was; the
message `{command: "toggleFont", enable: false}` delivered next leaves the
declaration block empty, so every declaration, set by the override or present
before it, is gone. -/
theorem toggleFont_apply_then_clear (css : CSSEngine) (w : World) (turnOn turnOff : Message)
    (net1 net2 : Except JSError Response)
    (hon : turnOn.command = some (utf16 "toggleFont") ∧ turnOn.enable = some true)
    (hoff : turnOff.command = some (utf16 "toggleFont") ∧ turnOff.enable = some false) :
    (∀ family height spacing background color : JSString,
      css "font-family" (utf16 "Arial, sans-serif") = some family →
      css "line-height" (utf16 "1.6") = some height →
      css "letter-spacing" (utf16 "0.05em") = some spacing →
      css "background-color" (utf16 "#FDFBF7") = some background →
      css "color" (utf16 "#333") = some color →
      (onMessage css w turnOn net1).world.bodyStyle.declared "font-family" =
        some ⟨"font-family", family, false⟩ ∧
      (onMessage css w turnOn net1).world.bodyStyle.declared "line-height" =
        some ⟨"line-height", height, false⟩ ∧
      (onMessage css w turnOn net1).world.bodyStyle.declared "letter-spacing" =
        some ⟨"letter-spacing", spacing, false⟩ ∧
      (onMessage css w turnOn net1).world.bodyStyle.declared "background-color" =
        some ⟨"background-color", background, false⟩ ∧
      (onMessage css w turnOn net1).world.bodyStyle.declared "color" =
        some ⟨"color", color, false⟩) ∧
    (∀ p, p ∉ ["font-family", "line-height", "letter-spacing", "background-color", "color"] →
      (onMessage css w turnOn net1).world.bodyStyle.declared p = w.bodyStyle.declared p) ∧
    (onMessage css (onMessage css w turnOn net1).world turnOff net2).world.bodyStyle = [] ∧
    (∀ p, (onMessage css (onMessage css w turnOn net1).world turnOff net2).world.bodyStyle.declared
      p = none) := by
  have h1 : (onMessage css w turnOn net1).world = applyDyslexiaFont css w := by
    simp [onMessage, hon.1, hon.2]
  have h2 : (onMessage css (onMessage css w turnOn net1).world turnOff net2).world.bodyStyle
      = [] := by
    simp [onMessage, hoff.1, hoff.2, removeDyslexiaFont]
  rw [h2, h1]
  exact ⟨fun family height spacing background color a b c d e =>
      applyDyslexiaFont_declared css w family height spacing background color a b c d e,
    fun p hp => applyDyslexiaFont_frame css w p hp, rfl, fun p => rfl⟩

/-- C8, amended, in a browser, on a body that starts with `margin: 0` and
`color: red !important`: after the first message `color` is `rgb(51, 51, 51)`,
not important, and `margin` is untouched; after the second nothing is left. -/
theorem toggleFont_apply_then_clear_witness :
    (onMessage browserEngine
        (World.initial [⟨"margin", utf16 "0", false⟩, ⟨"color", utf16 "red", true⟩])
        ⟨some (utf16 "toggleFont"), some true, none⟩
        (.error (.fetchRejection []))).world.bodyStyle.declared "color" =
      some ⟨"color", utf16 "rgb(51, 51, 51)", false⟩ ∧
    (onMessage browserEngine
        (World.initial [⟨"margin", utf16 "0", false⟩, ⟨"color", utf16 "red", true⟩])
        ⟨some (utf16 "toggleFont"), some true, none⟩
        (.error (.fetchRejection []))).world.bodyStyle.declared "margin" =
      some ⟨"margin", utf16 "0", false⟩ ∧
    (onMessage browserEngine (onMessage browserEngine
          (World.initial [⟨"margin", utf16 "0", false⟩, ⟨"color", utf16 "red", true⟩])
          ⟨some (utf16 "toggleFont"), some true, none⟩ (.error (.fetchRejection []))).world
        ⟨some (utf16 "toggleFont"), some false, none⟩
        (.error (.fetchRejection []))).world.bodyStyle = [] :=
  ⟨((toggleFont_apply_then_clear browserEngine
      (World.initial [⟨"margin", utf16 "0", false⟩, ⟨"color", utf16 "red", true⟩])
      ⟨some (utf16 "toggleFont"), some true, none⟩ ⟨some (utf16 "toggleFont"), some false, none⟩
      (.error (.fetchRejection [])) (.error (.fetchRejection [])) ⟨rfl, rfl⟩ ⟨rfl, rfl⟩).1
      (utf16 "Arial, sans-serif") (utf16 "1.6") (utf16 "0.05em") (utf16 "rgb(253, 251, 247)")
      (utf16 "rgb(51, 51, 51)") (by decide) (by decide) (by decide) (by decide)
      (by decide)).2.2.2.2,
   (toggleFont_apply_then_clear browserEngine
      (World.initial [⟨"margin", utf16 "0", false⟩, ⟨"color", utf16 "red", true⟩])
      ⟨some (utf16 "toggleFont"), some true, none⟩ ⟨some (utf16 "toggleFont"), some false, none⟩
      (.error (.fetchRejection [])) (.error (.fetchRejection [])) ⟨rfl, rfl⟩ ⟨rfl, rfl⟩).2.1
      "margin" (by decide),
   (toggleFont_apply_then_clear browserEngine
      (World.initial [⟨"margin", utf16 "0", false⟩, ⟨"color", utf16 "red", true⟩])
      ⟨some (utf16 "toggleFont"), some true, none⟩ ⟨some (utf16 "toggleFont"), some false, none⟩
      (.error (.fetchRejection [])) (.error (.fetchRejection [])) ⟨rfl, rfl⟩ ⟨rfl, rfl⟩).2.2.1⟩

/-- C9, as the claim states it, fails at the colours: in a browser the body's
`background-color` after a load with `fontEnabled` true is the canonical text
`rgb(253, 251, 247)`, not the text `#FDFBF7` that was assigned. -/
theorem onConfig_backgroundColor_is_canonical :
    ((onConfig browserEngine ⟨some (utf16 "http://localhost:8000"), some (utf16 "u1"), some true⟩
        (World.initial [])).bodyStyle.declared "background-color").map Declaration.value =
      some (utf16 "rgb(253, 251, 247)") ∧
    ((onConfig browserEngine ⟨some (utf16 "http://localhost:8000"), some (utf16 "u1"), some true⟩
        (World.initial [])).bodyStyle.declared "background-color").map Declaration.value ≠
      some (utf16 "#FDFBF7") := by
  decide

/-- C9, amended: when the stored configuration is read at load, `fontEnabled`
true leaves the body's `font-family`, `line-height`, `letter-spacing`,
`background-color` and `color` declared with the values the CSS engine parses
from the five fixed texts (for every engine that accepts them), not important,
and `fontEnabled` false or absent leaves the body's style exactly as it was; in
both cases the backend URL and the user id become the stored `backendUrl` and
`userId`. -/
theorem onConfig_spec (css : CSSEngine) (res : StoredConfig) (w : World) :
    (res.fontEnabled = some true →
      ∀ family height spacing background color : JSString,
      css "font-family" (utf16 "Arial, sans-serif") = some family →
      css "line-height" (utf16 "1.6") = some height →
      css "letter-spacing" (utf16 "0.05em") = some spacing →
      css "background-color" (utf16 "#FDFBF7") = some background →
      css "color" (utf16 "#333") = some color →
      (onConfig css res w).bodyStyle.declared "font-family" =
        some ⟨"font-family", family, false⟩ ∧
      (onConfig css res w).bodyStyle.declared "line-height" =
        some ⟨"line-height", height, false⟩ ∧
      (onConfig css res w).bodyStyle.declared "letter-spacing" =
        some ⟨"letter-spacing", spacing, false⟩ ∧
      (onConfig css res w).bodyStyle.declared "background-color" =
        some ⟨"background-color", background, false⟩ ∧
      (onConfig css res w).bodyStyle.declared "color" = some ⟨"color", color, false⟩) ∧
    (res.fontEnabled = some false ∨ res.fontEnabled = none →
      (onConfig css res w).bodyStyle = w.bodyStyle) ∧
    (onConfig css res w).BACKEND_URL = res.backendUrl ∧
    (onConfig css res w).USER_ID = res.userId := by
  refine ⟨fun h family height spacing background color a b c d e => ?_, fun h => ?_, ?_, ?_⟩
  · simp only [onConfig, h, if_true]
    exact applyDyslexiaFont_declared css
      { w with BACKEND_URL := res.backendUrl, USER_ID := res.userId }
      family height spacing background color a b c d e
  · rcases h with h | h <;> simp [onConfig, h]
  · unfold onConfig
    split
    · exact (applyDyslexiaFont_vars css _).1
    · rfl
  · unfold onConfig
    split
    · exact (applyDyslexiaFont_vars css _).2
    · rfl

/-- C9, amended, in a browser with `fontEnabled` stored as true, on a body
styled `margin: 0`: `background-color` is declared `rgb(253, 251, 247)`. -/
theorem onConfig_spec_witness :
    (onConfig browserEngine ⟨some (utf16 "http://localhost:8000"), some (utf16 "u1"), some true⟩
      (World.initial [⟨"margin", utf16 "0", false⟩])).bodyStyle.declared "background-color" =
      some ⟨"background-color", utf16 "rgb(253, 251, 247)", false⟩ :=
  ((onConfig_spec browserEngine
      ⟨some (utf16 "http://localhost:8000"), some (utf16 "u1"), some true⟩
      (World.initial [⟨"margin", utf16 "0", false⟩])).1 rfl
    (utf16 "Arial, sans-serif") (utf16 "1.6") (utf16 "0.05em") (utf16 "rgb(253, 251, 247)")
    (utf16 "rgb(51, 51, 51)") (by decide) (by decide) (by decide) (by decide)
    (by decide)).2.2.2.1

/-- C10: for every message whose `command` is neither `toggleFont` nor
`analyzeSelection`, the listener does nothing: the body style, the backend URL
and the user id are unchanged, no platform call is made (no network call, no
dialog), nothing fails, and no response goes back to the sender. -/
theorem onMessage_unrecognized (css : CSSEngine) (w : World) (msg : Message)
    (net : Except JSError Response)
    (h1 : msg.command ≠ some (utf16 "toggleFont"))
    (h2 : msg.command ≠ some (utf16 "analyzeSelection")) :
    (onMessage css w msg net).world = w ∧
    (onMessage css w msg net).run.effects = [] ∧
    (onMessage css w msg net).run.result = .ok () ∧
    (onMessage css w msg net).response = none := by
  simp [onMessage, h1, h2, pure, Run.pure]

/-- C10 for the message `{command: "ping"}`. -/
theorem onMessage_unrecognized_witness :
    (onMessage browserEngine (World.initial []) ⟨some (utf16 "ping"), none, none⟩
        (.error (.fetchRejection []))).world = World.initial [] ∧
    (onMessage browserEngine (World.initial []) ⟨some (utf16 "ping"), none, none⟩
        (.error (.fetchRejection []))).run.effects = [] ∧
    (onMessage browserEngine (World.initial []) ⟨some (utf16 "ping"), none, none⟩
        (.error (.fetchRejection []))).run.result = .ok () ∧
    (onMessage browserEngine (World.initial []) ⟨some (utf16 "ping"), none, none⟩
        (.error (.fetchRejection []))).response = none :=
  onMessage_unrecognized browserEngine (World.initial []) ⟨some (utf16 "ping"), none, none⟩
    (.error (.fetchRejection [])) (by decide) (by decide)

end DysLeXiC
